import Mathlib

/-!
Verification of the WildCogs chess cog against its specification.

The development shallowly embeds the Python source under `src/chessgame/`:

* `Board` abstracts the third-party rules library (python-chess) at the
  interface the cog consumes: the terminal/claim predicates of the current
  position and the side to move.  `Game`, `MoveResult`, `Game.getOrder` and
  `movePieceOutcome` embed `src/chessgame/game.py`.
* `getRaw` / `setRaw` / `clearRaw` embed the key/value config operations
  (`get_raw`, `set_raw`, `clear_raw`) used by `util.py` and the command
  modules, as association lists.
* `incrementScore`, `expectedScore`, `calculateEloOffset`, `finishGame`,
  `claimDrawCmd` and `movePieceCmd` embed `Util._increment_score`,
  `PlayerCommands._calculate_elo_offset`, `PlayerCommands._finish_game`,
  `PlayerCommands.claim_draw` and `PlayerCommands.move_piece`.
* `defaultIfEmpty`, `candidate`, `uniqueName`, `startGame` embed
  `Util._start_game`'s unique-name resolution.
* `migLoop`, `runMigrationsWith`, `runMigrations` embed
  `Migrate._run_migrations`.

Floating point is idealized over `ℝ`; Python's `round` (round-half-to-even)
is `pyRound`.
-/

/-- Abstraction of a python-chess board as consumed by `game.py`: the value
of each predicate the cog queries on the current position, the side to move
(`turnWhite`), and the move stack (as from/to square pairs). -/
structure Board where
  turnWhite : Bool
  isVariantLoss : Bool
  isVariantWin : Bool
  isVariantDraw : Bool
  isCheckmate : Bool
  isSeventyfiveMoves : Bool
  isFivefoldRepetition : Bool
  isInsufficientMaterial : Bool
  isStalemate : Bool
  isCheck : Bool
  canClaimFiftyMoves : Bool
  canClaimThreefoldRepetition : Bool
  moveStack : List (Nat × Nat)
deriving DecidableEq, Repr

/-- The board produced by `chess.variant.find_variant(...)()` for a fresh
game: the standard starting position.  White is to move, no terminal
predicate holds, and neither claimable-draw predicate holds (the half-move
clock is 0 and no position has repeated). -/
def initialBoard : Board where
  turnWhite := true
  isVariantLoss := false
  isVariantWin := false
  isVariantDraw := false
  isCheckmate := false
  isSeventyfiveMoves := false
  isFivefoldRepetition := false
  isInsufficientMaterial := false
  isStalemate := false
  isCheck := false
  canClaimFiftyMoves := false
  canClaimThreefoldRepetition := false
  moveStack := []

/-- `game.py` `Game`: the two player ids and the board.  (The `_arrows`
attribute only feeds SVG rendering and is omitted.) -/
structure Game where
  playerBlackId : Int
  playerWhiteId : Int
  board : Board
deriving DecidableEq, Repr

/-- `game.py` `MoveResult` dataclass. -/
structure MoveResult where
  isGameOver : Bool
  mention : Option String
  message : String
  winnerId : Option Int
  loserId : Option Int
deriving DecidableEq, Repr

/-- The `f"<@{id}>"` mention string. -/
def mentionOf (i : Int) : String :=
  "<@" ++ toString i ++ ">"

/-- `Game.get_order` (game.py lines 172-181): color label, the player id
whose turn it is, and the other player id; `previous` flips the turn. -/
def Game.getOrder (g : Game) (previous : Bool) : String × Int × Int :=
  let isWhiteTurn := if previous then !g.board.turnWhite else g.board.turnWhite
  if isWhiteTurn then
    ("White", g.playerWhiteId, g.playerBlackId)
  else
    ("Black", g.playerBlackId, g.playerWhiteId)

/-- The body of `Game.move_piece` (game.py lines 88-165) after the
`push_san` call succeeded: `g` is the game before the push (the turn-order
triple is computed from it, line 88, before the board is mutated) and
`post` is the board after the push.  Branch order and all strings follow
the source. -/
def movePieceOutcome (g : Game) (post : Board) : MoveResult :=
  let order := g.getOrder false
  let playerTurn := order.2.1
  let playerNext := order.2.2
  if post.isVariantLoss then
    { isGameOver := true
      mention := some (mentionOf g.playerBlackId)
      message := mentionOf g.playerBlackId ++ " wins!"
      winnerId := some g.playerBlackId
      loserId := some g.playerWhiteId }
  else if post.isVariantWin then
    { isGameOver := true
      mention := some (mentionOf g.playerWhiteId)
      message := mentionOf g.playerWhiteId ++ " wins!"
      winnerId := some g.playerWhiteId
      loserId := some g.playerBlackId }
  else if post.isVariantDraw then
    { isGameOver := true, mention := none, message := "Draw! Game Over!"
      winnerId := none, loserId := none }
  else if post.isCheckmate then
    { isGameOver := true
      mention := some (mentionOf playerTurn)
      message := "Checkmate! " ++ mentionOf playerTurn ++ " Wins!"
      winnerId := some playerTurn
      loserId := some playerNext }
  else if post.isSeventyfiveMoves then
    { isGameOver := true, mention := none
      message := "Draw by seventyfive moves rule!" ++
        "There are been no captures or pawns moved in the last 75 moves"
      winnerId := none, loserId := none }
  else if post.isFivefoldRepetition then
    { isGameOver := true, mention := none
      message := "Draw by fivefold repetition!" ++ "Position has occured five times"
      winnerId := none, loserId := none }
  else if post.isInsufficientMaterial then
    { isGameOver := true, mention := none
      message := "Draw by insufficient material!\n" ++
        "Neither player has enough pieces to win"
      winnerId := none, loserId := none }
  else if post.isStalemate then
    { isGameOver := true
      mention := some (mentionOf playerNext)
      message := "Draw by stalemate!\n" ++ mentionOf playerNext ++ " has no moves!"
      winnerId := none, loserId := none }
  else if post.isCheck then
    { isGameOver := false
      mention := some (mentionOf playerNext)
      message := mentionOf playerNext ++ " you are in check. Your move is next."
      winnerId := none, loserId := none }
  else
    { isGameOver := false
      mention := some (mentionOf playerNext)
      message := mentionOf playerNext ++ " you\x27re up next!"
      winnerId := none, loserId := none }

/-- `Game.move_piece` in full: `pushSan` abstracts `Board.push_san` from the
rules library (`none` models the `ValueError` raised on an illegal or
unparsable move, in which case the board is not mutated).  On success the
game's board is replaced by the pushed board and the outcome classification
is returned. -/
def Game.movePiece (pushSan : Board → String → Option Board) (g : Game)
    (move : String) : Option (Game × MoveResult) :=
  match pushSan g.board move with
  | none => none
  | some post => some ({ g with board := post }, movePieceOutcome g post)

/-! ## Key/value config primitives

The Red config backend exposes `get_raw`, `set_raw` and `clear_raw` on
nested mappings; the cog keys games by name within a channel and player
scores by stringified player id within a guild.  Modelled as association
lists (Python's id-to-string conversion is injective, so keys stay typed). -/

/-- `config...get_raw(key)`: look the key up. -/
def getRaw {α β : Type} [DecidableEq α] (k : α) : List (α × β) → Option β
  | [] => none
  | (k2, v) :: rest => if k2 = k then some v else getRaw k rest

/-- `config...set_raw(key, value=v)`: overwrite the key's entry or append a
new one. -/
def setRaw {α β : Type} [DecidableEq α] (k : α) (v : β) :
    List (α × β) → List (α × β)
  | [] => [(k, v)]
  | (k2, v2) :: rest => if k2 = k then (k, v) :: rest else (k2, v2) :: setRaw k v rest

/-- `config...clear_raw(key)`: drop the key's entry. -/
def clearRaw {α β : Type} [DecidableEq α] (k : α) :
    List (α × β) → List (α × β)
  | [] => []
  | (k2, v) :: rest => if k2 = k then clearRaw k rest else (k2, v) :: clearRaw k rest

/-- One scoreboard entry (`util.py` `_increment_score`'s record shape). -/
structure PlayerScore where
  elo : Int
  wins : Nat
  losses : Nat
  ties : Nat
deriving DecidableEq, Repr

/-- Per-guild scoreboard: player id to record. -/
abbrev Scoreboard := List (Int × PlayerScore)

/-- Per-channel games mapping: game name to game. -/
abbrev GamesStore := List (String × Game)

/-- The persisted state a command touches: the channel's games mapping and
the guild's scoreboard. -/
structure ChannelState where
  games : GamesStore
  scoreboard : Scoreboard
deriving DecidableEq, Repr

/-- Modelled from the spec: `constants.py` is not under `src/` (only its
importers are).  The spec fixes only that there is "a fixed default starting
rating" used when a player record is absent; every claim below is
independent of the value, fixed here as 1500. -/
def DEFAULT_ELO : Int := 1500

/-- `Util._increment_score` (util.py lines 40-63): read-modify-write of one
player's record, creating it at the default baseline plus the deltas when
absent. -/
def incrementScore (sb : Scoreboard) (pid : Int) (elo : Int)
    (wins losses ties : Nat) : Scoreboard :=
  match getRaw pid sb with
  | some ps =>
      setRaw pid
        { elo := ps.elo + elo, wins := ps.wins + wins
          losses := ps.losses + losses, ties := ps.ties + ties } sb
  | none =>
      setRaw pid
        { elo := DEFAULT_ELO + elo, wins := wins, losses := losses, ties := ties } sb

/-- The rating `_calculate_elo_offset` reads for a player:
`scoreboard.get_raw(str(pid), "elo", default=DEFAULT_ELO)`. -/
def eloOf (sb : Scoreboard) (pid : Int) : Int :=
  match getRaw pid sb with
  | some ps => ps.elo
  | none => DEFAULT_ELO

open Classical in
/-- Python's built-in `round` on the idealized reals: round half to even. -/
noncomputable def pyRound (x : ℝ) : ℤ :=
  if Int.fract x < 1 / 2 then ⌊x⌋
  else if 1 / 2 < Int.fract x then ⌊x⌋ + 1
  else if Even ⌊x⌋ then ⌊x⌋ else ⌊x⌋ + 1

/-- `expected_score_1` of `PlayerCommands._calculate_elo_offset`
(player.py lines 351-352): `1 / (1 + 10 ** ((elo2 - elo1) / 400))`. -/
noncomputable def expectedScore (sb : Scoreboard) (p1 p2 : Int) : ℝ :=
  1 / (1 + (10 : ℝ) ^ ((((eloOf sb p2 : ℝ)) - (eloOf sb p1 : ℝ)) / 400))

/-- `PlayerCommands._calculate_elo_offset` (player.py lines 341-362): both
deltas from the same rating snapshot, `K = 32`,
`expected_score_2 = 1 - expected_score_1`, `player_2_score = 1 - player_1_score`,
each delta rounded independently. -/
noncomputable def calculateEloOffset (sb : Scoreboard) (p1 p2 : Int)
    (score1 : ℝ) : ℤ × ℤ :=
  (pyRound (32 * (score1 - expectedScore sb p1 p2)),
   pyRound (32 * ((1 - score1) - (1 - expectedScore sb p1 p2))))

/-- `PlayerCommands._finish_game` (player.py lines 300-339): clear the game
record; if the two ids coincide (self-play) stop; otherwise compute both
Elo offsets from the pre-update scoreboard and apply the two increments in
sequence (draw: score 0.5 and a tie each; decisive: score 1, a win for
`player1` and a loss for `player2`). -/
noncomputable def finishGame (st : ChannelState) (gameName : String)
    (isDraw : Bool) (player1 player2 : Int) : ChannelState :=
  let games := clearRaw gameName st.games
  if player1 = player2 then
    { st with games := games }
  else if isDraw then
    let off := calculateEloOffset st.scoreboard player1 player2 (1 / 2)
    { games := games
      scoreboard :=
        incrementScore (incrementScore st.scoreboard player1 off.1 0 0 1)
          player2 off.2 0 0 1 }
  else
    let off := calculateEloOffset st.scoreboard player1 player2 1
    { games := games
      scoreboard :=
        incrementScore (incrementScore st.scoreboard player1 off.1 1 0 0)
          player2 off.2 0 1 0 }

/-- `PlayerCommands._fifty_moves`. -/
def fiftyMoves : String := "Fifty moves"

/-- `PlayerCommands._threefold_repetition`. -/
def threefoldRepetition : String := "Threefold repetition"

/-- `PlayerCommands.claim_draw` (player.py lines 188-233), state effect
only: unknown game or an ineligible/unknown claim type leaves the state
untouched; an eligible named claim finishes the game as a draw. -/
noncomputable def claimDrawCmd (st : ChannelState) (gameName claimType : String) :
    ChannelState :=
  match getRaw gameName st.games with
  | none => st
  | some g =>
      if fiftyMoves = claimType ∧ g.board.canClaimFiftyMoves then
        finishGame st gameName true g.playerBlackId g.playerWhiteId
      else if threefoldRepetition = claimType ∧ g.board.canClaimThreefoldRepetition then
        finishGame st gameName true g.playerBlackId g.playerWhiteId
      else
        st

/-- Python truthiness of `Optional[int]` (`if move_result.winner_id:`). -/
def optTruthy : Option Int → Bool
  | none => false
  | some n => n != 0

/-- `PlayerCommands.move_piece` (player.py lines 81-182), state effect only:
unknown game, a non-mover author, or a rejected move text leave the state
untouched; a successful move either finishes the game (winner branch by the
result's ids, draw branch by the turn-order ids) or re-persists the mutated
game. -/
noncomputable def movePieceCmd (pushSan : Board → String → Option Board)
    (st : ChannelState) (gameName : String) (author : Int) (move : String) :
    ChannelState :=
  match getRaw gameName st.games with
  | none => st
  | some g =>
      let order := g.getOrder false
      let playerTurn := order.2.1
      let playerNext := order.2.2
      if author = playerTurn then
        match g.movePiece pushSan move with
        | none => st
        | some (g2, mr) =>
            if mr.isGameOver then
              if optTruthy mr.winnerId then
                finishGame st gameName false (mr.winnerId.getD 0) (mr.loserId.getD 0)
              else
                finishGame st gameName true playerTurn playerNext
            else
              { st with games := setRaw gameName g2 st.games }
      else
        st

/-! ## Unique game names (`Util._start_game`) and migrations -/

/-- `if not game_name: game_name = 'game'` (util.py lines 74-75): a missing
or empty requested name falls back to the default base name. -/
def defaultIfEmpty (requested : Option String) : String :=
  match requested with
  | none => "game"
  | some s => if s = "" then "game" else s

/-- The name tried at iteration `count` of the uniqueness loop:
`game_name + suffix` where `suffix` is `''` at count 0 and `str(count)`
afterwards (util.py lines 78-84). -/
def candidate (base : String) (count : Nat) : String :=
  if count = 0 then base else base ++ toString count

/-- The `while game_name + suffix in games` loop (util.py lines 80-83):
increment `count` until the candidate is not a key of the games mapping.
The loop always ends because the candidates are pairwise distinct and the
mapping is finite; `fuel` (instantiated at one more than the mapping's
size) makes that termination explicit. -/
def uniqueName (games : GamesStore) (base : String) : Nat → Nat → String
  | _, 0 => candidate base 0
  | count, fuel + 1 =>
      if (getRaw (candidate base count) games).isSome then
        uniqueName games base (count + 1) fuel
      else
        candidate base count

/-- `Util._start_game` (util.py lines 65-108), state effect only: resolve a
unique name, create the game on the variant's initial position, persist it,
and return the stored name. -/
def startGame (st : ChannelState) (playerBlackId playerWhiteId : Int)
    (requested : Option String) : String × ChannelState :=
  let base := defaultIfEmpty requested
  let name := uniqueName st.games base 0 (st.games.length + 1)
  (name,
   { st with
      games :=
        setRaw name
          { playerBlackId := playerBlackId, playerWhiteId := playerWhiteId
            board := initialBoard } st.games })

/-- What one run of `Migrate._run_migrations` did: the 0-based indices into
the `migrations` list that were executed, in order; the schema versions
persisted by `schema_version.set`, in order; and the version the loop
variable holds at the end. -/
structure MigTrace where
  ran : List Nat
  persisted : List Nat
  final : Nat
deriving DecidableEq, Repr

/-- The `while schema_version < LATEST_SCHEMA_VERSION` loop of
`Migrate._run_migrations` (migrate.py lines 25-29): bump the version, run
`migrations[schema_version - 1]`, persist the bumped version. -/
def migLoop (latest : Nat) (v : Nat) : MigTrace :=
  if v < latest then
    let rest := migLoop latest (v + 1)
    { ran := v :: rest.ran, persisted := (v + 1) :: rest.persisted, final := rest.final }
  else
    { ran := [], persisted := [], final := v }
termination_by latest - v

/-- `Migrate._run_migrations` (migrate.py lines 13-30) with the latest
version as a parameter: return immediately when the stored version already
equals the latest, otherwise run the loop. -/
def runMigrationsWith (latest v0 : Nat) : MigTrace :=
  if v0 = latest then { ran := [], persisted := [], final := v0 }
  else migLoop latest v0

/-- Modelled from the spec: `constants.py` is not under `src/`.  The
migrations list of `_run_migrations` has exactly one entry
(`_run_migration_v1`), and the spec's "ordered list of idempotent-once
transforms, each bumping the version by exactly one step" pins the latest
known version to the list's length, 1. -/
def LATEST_SCHEMA_VERSION : Nat := 1

/-- `Migrate._run_migrations` as shipped. -/
def runMigrations (v0 : Nat) : MigTrace :=
  runMigrationsWith LATEST_SCHEMA_VERSION v0

/-! ## Concrete inputs used by witnesses and counterexamples -/

/-- A game between player 1 (black) and player 2 (white) on a fresh board. -/
def wGame : Game :=
  { playerBlackId := 1, playerWhiteId := 2, board := initialBoard }

/-- A channel holding `wGame` under the name "game", empty scoreboard. -/
def wState : ChannelState :=
  { games := [("game", wGame)], scoreboard := [] }

/-- A post-move board on which checkmate was just delivered (white moved,
so black is to move and is mated); no variant predicate holds. -/
def cmBoard : Board :=
  { initialBoard with turnWhite := false, isCheckmate := true, isCheck := true }

/-- A post-move board that is simultaneously a stalemate and an
insufficient-material draw (e.g. the mated-free king-and-knight corner
stalemate: K+N vs K is insufficient material), with no higher-precedence
predicate holding. -/
def cexBoard : Board :=
  { initialBoard with
      turnWhite := false, isStalemate := true, isInsufficientMaterial := true }

/-! ## Helper lemmas -/

lemma pyRound_intCast (n : ℤ) : pyRound ((n : ℝ)) = n := by
  unfold pyRound
  rw [Int.fract_intCast, Int.floor_intCast, if_pos (by norm_num)]

lemma pyRound_neg (x : ℝ) : pyRound (-x) = -pyRound x := by
  by_cases h0 : Int.fract x = 0
  · have hx : x = ((⌊x⌋ : ℤ) : ℝ) := by
      have h1 := Int.self_sub_fract x
      rw [h0] at h1
      linarith
    rw [hx, ← Int.cast_neg, pyRound_intCast, pyRound_intCast]
  · have hfr : Int.fract (-x) = 1 - Int.fract x := Int.fract_neg h0
    have hpos : 0 < Int.fract x := lt_of_le_of_ne (Int.fract_nonneg x) (Ne.symm h0)
    have hlt1 : Int.fract x < 1 := Int.fract_lt_one x
    have hfloor : ⌊-x⌋ = -⌊x⌋ - 1 := by
      have hcast : ((⌊-x⌋ : ℤ) : ℝ) = ((-⌊x⌋ - 1 : ℤ) : ℝ) := by
        push_cast
        have h1 := Int.self_sub_fract (-x)
        have h2 := Int.self_sub_fract x
        rw [hfr] at h1
        linarith
      exact_mod_cast hcast
    unfold pyRound
    rw [hfr, hfloor]
    simp only [Int.even_iff]
    split_ifs <;> first | omega | (exfalso; linarith)

/-- The two deltas of `_calculate_elo_offset` are rounded from quantities
that are exact negatives of each other, and round-half-to-even is odd; so
they always cancel. -/
lemma eloOffset_sum (sb : Scoreboard) (p1 p2 : Int) (s : ℝ) :
    (calculateEloOffset sb p1 p2 s).1 + (calculateEloOffset sb p1 p2 s).2 = 0 := by
  unfold calculateEloOffset
  dsimp only
  have h : (32 : ℝ) * ((1 - s) - (1 - expectedScore sb p1 p2)) =
      -(32 * (s - expectedScore sb p1 p2)) := by ring
  rw [h, pyRound_neg]
  omega

lemma expectedScore_of_eq (sb : Scoreboard) (p1 p2 : Int)
    (h : eloOf sb p1 = eloOf sb p2) : expectedScore sb p1 p2 = 1 / 2 := by
  unfold expectedScore
  rw [h, sub_self, zero_div, Real.rpow_zero]
  norm_num

lemma finishGame_games (st : ChannelState) (gameName : String) (isDraw : Bool)
    (p1 p2 : Int) :
    (finishGame st gameName isDraw p1 p2).games = clearRaw gameName st.games := by
  unfold finishGame
  split_ifs <;> rfl

lemma getRaw_clearRaw_self {α β : Type} [DecidableEq α] (k : α)
    (l : List (α × β)) : getRaw k (clearRaw k l) = none := by
  induction l with
  | nil => rfl
  | cons hd tl ih =>
      obtain ⟨k2, v⟩ := hd
      by_cases h : k2 = k
      · simp [clearRaw, h, ih]
      · simp [clearRaw, getRaw, h, ih]

lemma string_ne_append_one (s : String) : s ≠ s ++ "1" := by
  intro h
  have h2 : s.length = (s ++ "1").length := by rw [← h]
  rw [String.length_append] at h2
  have h3 : ("1" : String).length = 1 := by decide
  omega

lemma string_ne_append_two (s : String) : s ≠ s ++ "2" := by
  intro h
  have h2 : s.length = (s ++ "2").length := by rw [← h]
  rw [String.length_append] at h2
  have h3 : ("2" : String).length = 1 := by decide
  omega

lemma string_append_one_ne_two (s : String) : s ++ "1" ≠ s ++ "2" := by
  intro h
  have h2 : (s ++ "1").data = (s ++ "2").data := by rw [h]
  simp [String.data_append] at h2

lemma migLoop_eq_range (latest : Nat) :
    ∀ (n v : Nat), latest - v = n → v ≤ latest →
      migLoop latest v =
        { ran := List.range' v n, persisted := List.range' (v + 1) n
          final := latest } := by
  intro n
  induction n with
  | zero =>
      intro v h1 h2
      rw [migLoop, if_neg (by omega)]
      have hv : v = latest := by omega
      simp [hv]
  | succ n ih =>
      intro v h1 h2
      rw [migLoop, if_pos (by omega)]
      rw [ih (v + 1) (by omega) (by omega)]
      simp [List.range'_succ]

/-! ## Claim theorems -/

/-- C1 (counterexample): on a position that is simultaneously a stalemate
and an insufficient-material draw (no higher-precedence predicate holding),
`Game.move_piece` classifies the outcome as the insufficient-material draw,
not as stalemate — the claim's stated precedence (stalemate before
insufficient material) is the reverse of the code's. -/
theorem C1_stalemate_insufficient_cex :
    movePieceOutcome wGame cexBoard =
      { isGameOver := true, mention := none
        message := "Draw by insufficient material!\n" ++
          "Neither player has enough pieces to win"
        winnerId := none, loserId := none } ∧
    (movePieceOutcome wGame cexBoard).mention ≠ some (mentionOf 1) ∧
    (movePieceOutcome wGame cexBoard).message ≠
      "Draw by stalemate!\n" ++ mentionOf 1 ++ " has no moves!" := by
  refine ⟨by rfl, by decide, by decide⟩

/-- C1 (amended): `Game.move_piece`'s outcome classification precedence is
variant loss, variant win, variant draw, checkmate, seventy-five-move draw,
fivefold-repetition draw, insufficient material, stalemate: each branch
fires when its predicate holds and every earlier predicate fails,
regardless of the later predicates — in particular a position that is both
a stalemate and an insufficient-material draw is classified as the
insufficient-material draw. -/
theorem C1_outcome_precedence (g : Game) (post : Board) :
    (post.isVariantLoss = true →
      movePieceOutcome g post =
        { isGameOver := true, mention := some (mentionOf g.playerBlackId)
          message := mentionOf g.playerBlackId ++ " wins!"
          winnerId := some g.playerBlackId, loserId := some g.playerWhiteId }) ∧
    (post.isVariantLoss = false → post.isVariantWin = true →
      movePieceOutcome g post =
        { isGameOver := true, mention := some (mentionOf g.playerWhiteId)
          message := mentionOf g.playerWhiteId ++ " wins!"
          winnerId := some g.playerWhiteId, loserId := some g.playerBlackId }) ∧
    (post.isVariantLoss = false → post.isVariantWin = false →
      post.isVariantDraw = true →
      movePieceOutcome g post =
        { isGameOver := true, mention := none, message := "Draw! Game Over!"
          winnerId := none, loserId := none }) ∧
    (post.isVariantLoss = false → post.isVariantWin = false →
      post.isVariantDraw = false → post.isCheckmate = true →
      movePieceOutcome g post =
        { isGameOver := true
          mention := some (mentionOf (g.getOrder false).2.1)
          message := "Checkmate! " ++ mentionOf (g.getOrder false).2.1 ++ " Wins!"
          winnerId := some (g.getOrder false).2.1
          loserId := some (g.getOrder false).2.2 }) ∧
    (post.isVariantLoss = false → post.isVariantWin = false →
      post.isVariantDraw = false → post.isCheckmate = false →
      post.isSeventyfiveMoves = true →
      movePieceOutcome g post =
        { isGameOver := true, mention := none
          message := "Draw by seventyfive moves rule!" ++
            "There are been no captures or pawns moved in the last 75 moves"
          winnerId := none, loserId := none }) ∧
    (post.isVariantLoss = false → post.isVariantWin = false →
      post.isVariantDraw = false → post.isCheckmate = false →
      post.isSeventyfiveMoves = false → post.isFivefoldRepetition = true →
      movePieceOutcome g post =
        { isGameOver := true, mention := none
          message := "Draw by fivefold repetition!" ++
            "Position has occured five times"
          winnerId := none, loserId := none }) ∧
    (post.isVariantLoss = false → post.isVariantWin = false →
      post.isVariantDraw = false → post.isCheckmate = false →
      post.isSeventyfiveMoves = false → post.isFivefoldRepetition = false →
      post.isInsufficientMaterial = true →
      movePieceOutcome g post =
        { isGameOver := true, mention := none
          message := "Draw by insufficient material!\n" ++
            "Neither player has enough pieces to win"
          winnerId := none, loserId := none }) ∧
    (post.isVariantLoss = false → post.isVariantWin = false →
      post.isVariantDraw = false → post.isCheckmate = false →
      post.isSeventyfiveMoves = false → post.isFivefoldRepetition = false →
      post.isInsufficientMaterial = false → post.isStalemate = true →
      movePieceOutcome g post =
        { isGameOver := true
          mention := some (mentionOf (g.getOrder false).2.2)
          message := "Draw by stalemate!\n" ++ mentionOf (g.getOrder false).2.2 ++
            " has no moves!"
          winnerId := none, loserId := none }) := by
  refine ⟨?_, ?_, ?_, ?_, ?_, ?_, ?_, ?_⟩ <;> intros <;> simp_all [movePieceOutcome]

/-- C3: when a successful move produces a checkmate position and no
variant-specific outcome applies, the outcome is the checkmate
classification with the mover (the side to move on the pre-push board) as
winner and the opponent as loser — never a stalemate or draw result. -/
theorem C3_checkmate_mover_wins (g : Game) (post : Board)
    (hvl : post.isVariantLoss = false) (hvw : post.isVariantWin = false)
    (hvd : post.isVariantDraw = false) (hcm : post.isCheckmate = true) :
    movePieceOutcome g post =
      { isGameOver := true
        mention := some (mentionOf
          (if g.board.turnWhite then g.playerWhiteId else g.playerBlackId))
        message := "Checkmate! " ++
          mentionOf (if g.board.turnWhite then g.playerWhiteId else g.playerBlackId) ++
          " Wins!"
        winnerId := some
          (if g.board.turnWhite then g.playerWhiteId else g.playerBlackId)
        loserId := some
          (if g.board.turnWhite then g.playerBlackId else g.playerWhiteId) } := by
  cases hb : g.board.turnWhite <;>
    simp_all [movePieceOutcome, Game.getOrder]

/-- Witness for C3: white (player 2) mates black from the fresh board. -/
theorem C3_checkmate_mover_wins_witness :
    movePieceOutcome wGame cmBoard =
      { isGameOver := true
        mention := some (mentionOf (if wGame.board.turnWhite then wGame.playerWhiteId else wGame.playerBlackId))
        message := "Checkmate! " ++
          mentionOf (if wGame.board.turnWhite then wGame.playerWhiteId else wGame.playerBlackId) ++ " Wins!"
        winnerId := some (if wGame.board.turnWhite then wGame.playerWhiteId else wGame.playerBlackId)
        loserId := some (if wGame.board.turnWhite then wGame.playerBlackId else wGame.playerWhiteId) } :=
  C3_checkmate_mover_wins wGame cmBoard rfl rfl rfl rfl

/-- C10: a variant-specific loss is always credited to the black player as
winner (white as loser) and a variant-specific win to the white player as
winner (black as loser), independently of whose turn it was. -/
theorem C10_variant_outcome_by_color (g : Game) (post : Board) :
    (post.isVariantLoss = true →
      movePieceOutcome g post =
        { isGameOver := true, mention := some (mentionOf g.playerBlackId)
          message := mentionOf g.playerBlackId ++ " wins!"
          winnerId := some g.playerBlackId, loserId := some g.playerWhiteId }) ∧
    (post.isVariantLoss = false → post.isVariantWin = true →
      movePieceOutcome g post =
        { isGameOver := true, mention := some (mentionOf g.playerWhiteId)
          message := mentionOf g.playerWhiteId ++ " wins!"
          winnerId := some g.playerWhiteId, loserId := some g.playerBlackId }) := by
  constructor <;> intros <;> simp_all [movePieceOutcome]

/-- C2 (counterexample): there is no pair of stored ratings and score in
the outcome set for which the two Elo deltas fail to sum to zero — the
pre-rounding quantities are exact negatives of one another and
round-half-to-even is an odd function, so the independent roundings always
cancel. -/
theorem C2_no_nonzero_sum_cex :
    ¬ ∃ (sb : Scoreboard) (p1 p2 : Int) (s : ℝ),
        (s = 0 ∨ s = 1 / 2 ∨ s = 1) ∧
        (calculateEloOffset sb p1 p2 s).1 + (calculateEloOffset sb p1 p2 s).2 ≠ 0 := by
  rintro ⟨sb, p1, p2, s, -, hne⟩
  exact hne (eloOffset_sum sb p1 p2 s)

/-- C2 (amended): for every pair of stored ratings and every score, the two
Elo deltas of `_calculate_elo_offset` sum to exactly zero: both are
computed from the same rating snapshot, the second pre-rounding quantity
`K * ((1 - s) - (1 - e))` equals the negative of the first, and Python's
round-half-to-even satisfies `round(-x) = -round(x)`. -/
theorem C2_deltas_sum_to_zero (sb : Scoreboard) (p1 p2 : Int) (s : ℝ) :
    (calculateEloOffset sb p1 p2 s).1 + (calculateEloOffset sb p1 p2 s).2 = 0 :=
  eloOffset_sum sb p1 p2 s

/-- C6: with equal stored ratings (in particular both at the default
baseline), a decisive outcome with score 1 for the first player yields Elo
deltas +16 and -16 (K = 32, expected score one half each). -/
theorem C6_equal_ratings_deltas (sb : Scoreboard) (p1 p2 : Int)
    (h : eloOf sb p1 = eloOf sb p2) :
    calculateEloOffset sb p1 p2 1 = (16, -16) := by
  unfold calculateEloOffset
  rw [expectedScore_of_eq sb p1 p2 h]
  have h1 : (32 : ℝ) * (1 - 1 / 2) = ((16 : ℤ) : ℝ) := by norm_num
  have h2 : (32 : ℝ) * ((1 - 1) - (1 - 1 / 2)) = ((-16 : ℤ) : ℝ) := by norm_num
  rw [h1, h2, pyRound_intCast, pyRound_intCast]

/-- Witness for C6: two absent players, both at the default baseline. -/
theorem C6_equal_ratings_deltas_witness :
    calculateEloOffset [] 1 2 1 = (16, -16) :=
  C6_equal_ratings_deltas [] 1 2 rfl

/-- C7: finishing a match whose two player identifiers coincide (self-play)
leaves the guild scoreboard — every player record in it — unchanged. -/
theorem C7_selfplay_scoreboard_unchanged (st : ChannelState)
    (gameName : String) (isDraw : Bool) (p : Int) :
    (finishGame st gameName isDraw p p).scoreboard = st.scoreboard := by
  unfold finishGame
  simp

/-- C4: a move whose text the rules library rejects (the `push_san`
`ValueError` path) leaves the channel state — the persisted game record
with its board and move history, and the scoreboard — exactly as before the
command, for any author. -/
theorem C4_rejected_move_no_mutation (pushSan : Board → String → Option Board)
    (st : ChannelState) (gameName : String) (author : Int) (move : String)
    (g : Game) (hget : getRaw gameName st.games = some g)
    (hrej : pushSan g.board move = none) :
    movePieceCmd pushSan st gameName author move = st := by
  unfold movePieceCmd
  rw [hget]
  dsimp only
  split_ifs with h
  · unfold Game.movePiece
    rw [hrej]
  · rfl

/-- Witness for C4: the illegal text "Zz9" (a `pushSan` that rejects) on the
stored game leaves the state unchanged even for the mover (player 2). -/
theorem C4_rejected_move_no_mutation_witness :
    movePieceCmd (fun _ _ => none) wState "game" 2 "Zz9" = wState :=
  C4_rejected_move_no_mutation (fun _ _ => none) wState "game" 2 "Zz9" wGame rfl rfl

/-- C8: a named draw claim (fifty moves / threefold repetition) on a stored
game succeeds — the state becomes `_finish_game`'s draw state, with the
game record removed — exactly when the corresponding claimable-draw
predicate holds on the current board; otherwise the state is unchanged. -/
theorem C8_claim_draw_iff_predicate (st : ChannelState)
    (gameName claimType : String) (g : Game)
    (hget : getRaw gameName st.games = some g) :
    (claimType = fiftyMoves → g.board.canClaimFiftyMoves = true →
      claimDrawCmd st gameName claimType =
        finishGame st gameName true g.playerBlackId g.playerWhiteId ∧
      getRaw gameName (claimDrawCmd st gameName claimType).games = none) ∧
    (claimType = fiftyMoves → g.board.canClaimFiftyMoves = false →
      claimDrawCmd st gameName claimType = st) ∧
    (claimType = threefoldRepetition →
      g.board.canClaimThreefoldRepetition = true →
      claimDrawCmd st gameName claimType =
        finishGame st gameName true g.playerBlackId g.playerWhiteId ∧
      getRaw gameName (claimDrawCmd st gameName claimType).games = none) ∧
    (claimType = threefoldRepetition →
      g.board.canClaimThreefoldRepetition = false →
      claimDrawCmd st gameName claimType = st) := by
  have hne : threefoldRepetition ≠ fiftyMoves := by decide
  have hne2 : fiftyMoves ≠ threefoldRepetition := by decide
  refine ⟨?_, ?_, ?_, ?_⟩ <;> intro h1 h2 <;> subst h1
  · have hcmd : claimDrawCmd st gameName fiftyMoves =
        finishGame st gameName true g.playerBlackId g.playerWhiteId := by
      unfold claimDrawCmd
      rw [hget]
      dsimp only
      rw [if_pos ⟨rfl, h2⟩]
    refine ⟨hcmd, ?_⟩
    rw [hcmd, finishGame_games]
    exact getRaw_clearRaw_self gameName st.games
  · unfold claimDrawCmd
    rw [hget]
    dsimp only
    rw [if_neg (by simp [h2]), if_neg (by simp [hne])]
  · have hcmd : claimDrawCmd st gameName threefoldRepetition =
        finishGame st gameName true g.playerBlackId g.playerWhiteId := by
      unfold claimDrawCmd
      rw [hget]
      dsimp only
      rw [if_neg (by simp [hne2]), if_pos ⟨rfl, h2⟩]
    refine ⟨hcmd, ?_⟩
    rw [hcmd, finishGame_games]
    exact getRaw_clearRaw_self gameName st.games
  · unfold claimDrawCmd
    rw [hget]
    dsimp only
    rw [if_neg (by simp [hne2]), if_neg (by simp [h2])]

/-- Witness for C8: a fifty-move claim immediately after match creation
(the fresh board, on which the predicate is false) is rejected and the
state is unchanged. -/
theorem C8_claim_draw_iff_predicate_witness :
    claimDrawCmd wState "game" fiftyMoves = wState :=
  (C8_claim_draw_iff_predicate wState "game" fiftyMoves wGame rfl).2.1 rfl rfl

/-- C9: starting below the latest schema version, `_run_migrations` runs
exactly the pending transforms (0-based indices `v0, v0+1, …, latest-1`) in
ascending order, persists the version incremented by exactly one after each
(`v0+1, …, latest`), and ends with the stored version equal to the latest;
starting at the latest version it runs no transform. -/
theorem C9_migration_order (latest v0 : Nat) :
    (v0 < latest →
      runMigrationsWith latest v0 =
        { ran := List.range' v0 (latest - v0)
          persisted := List.range' (v0 + 1) (latest - v0), final := latest }) ∧
    (v0 = latest →
      runMigrationsWith latest v0 = { ran := [], persisted := [], final := v0 }) := by
  constructor
  · intro h
    unfold runMigrationsWith
    rw [if_neg (by omega)]
    exact migLoop_eq_range latest (latest - v0) v0 rfl (le_of_lt h)
  · intro h
    unfold runMigrationsWith
    rw [if_pos h]

/-- C5: three sequential `_start_game` calls in a fresh channel with no
requested name (or three times the same requested name) store three
pairwise distinct names — the base name, then the base name with suffixes
"1" and "2" — and each name afterwards resolves via a get to the stored
game. -/
theorem C5_three_starts_distinct_names (sb : Scoreboard) (b w : Int)
    (requested : Option String) :
    (startGame { games := [], scoreboard := sb } b w requested).1 =
      defaultIfEmpty requested ∧
    (startGame (startGame { games := [], scoreboard := sb } b w requested).2
        b w requested).1 = defaultIfEmpty requested ++ "1" ∧
    (startGame (startGame (startGame { games := [], scoreboard := sb } b w
        requested).2 b w requested).2 b w requested).1 =
      defaultIfEmpty requested ++ "2" ∧
    (startGame { games := [], scoreboard := sb } b w requested).1 ≠
      (startGame (startGame { games := [], scoreboard := sb } b w requested).2
        b w requested).1 ∧
    (startGame { games := [], scoreboard := sb } b w requested).1 ≠
      (startGame (startGame (startGame { games := [], scoreboard := sb } b w
        requested).2 b w requested).2 b w requested).1 ∧
    (startGame (startGame { games := [], scoreboard := sb } b w requested).2
        b w requested).1 ≠
      (startGame (startGame (startGame { games := [], scoreboard := sb } b w
        requested).2 b w requested).2 b w requested).1 ∧
    getRaw (startGame { games := [], scoreboard := sb } b w requested).1
      (startGame (startGame (startGame { games := [], scoreboard := sb } b w
        requested).2 b w requested).2 b w requested).2.games =
      some { playerBlackId := b, playerWhiteId := w, board := initialBoard } ∧
    getRaw (startGame (startGame { games := [], scoreboard := sb } b w
        requested).2 b w requested).1
      (startGame (startGame (startGame { games := [], scoreboard := sb } b w
        requested).2 b w requested).2 b w requested).2.games =
      some { playerBlackId := b, playerWhiteId := w, board := initialBoard } ∧
    getRaw (startGame (startGame (startGame { games := [], scoreboard := sb }
        b w requested).2 b w requested).2 b w requested).1
      (startGame (startGame (startGame { games := [], scoreboard := sb } b w
        requested).2 b w requested).2 b w requested).2.games =
      some { playerBlackId := b, playerWhiteId := w, board := initialBoard } := by
  have hb1 := string_ne_append_one (defaultIfEmpty requested)
  have hb2 := string_ne_append_two (defaultIfEmpty requested)
  have h12 := string_append_one_ne_two (defaultIfEmpty requested)
  have ht1 : toString (1 : Nat) = "1" := by decide
  have ht2 : toString (2 : Nat) = "2" := by decide
  have e1 : startGame { games := [], scoreboard := sb } b w requested =
      (defaultIfEmpty requested,
       { games := [(defaultIfEmpty requested,
           { playerBlackId := b, playerWhiteId := w, board := initialBoard })]
         scoreboard := sb }) := by
    simp [startGame, uniqueName, candidate, getRaw, setRaw]
  have e2 : startGame
      { games := [(defaultIfEmpty requested,
          { playerBlackId := b, playerWhiteId := w, board := initialBoard })]
        scoreboard := sb } b w requested =
      (defaultIfEmpty requested ++ "1",
       { games := [(defaultIfEmpty requested,
           { playerBlackId := b, playerWhiteId := w, board := initialBoard }),
           (defaultIfEmpty requested ++ "1",
           { playerBlackId := b, playerWhiteId := w, board := initialBoard })]
         scoreboard := sb }) := by
    simp [startGame, uniqueName, candidate, getRaw, setRaw, ht1, hb1]
  have e3 : startGame
      { games := [(defaultIfEmpty requested,
          { playerBlackId := b, playerWhiteId := w, board := initialBoard }),
          (defaultIfEmpty requested ++ "1",
          { playerBlackId := b, playerWhiteId := w, board := initialBoard })]
        scoreboard := sb } b w requested =
      (defaultIfEmpty requested ++ "2",
       { games := [(defaultIfEmpty requested,
           { playerBlackId := b, playerWhiteId := w, board := initialBoard }),
           (defaultIfEmpty requested ++ "1",
           { playerBlackId := b, playerWhiteId := w, board := initialBoard }),
           (defaultIfEmpty requested ++ "2",
           { playerBlackId := b, playerWhiteId := w, board := initialBoard })]
         scoreboard := sb }) := by
    simp [startGame, uniqueName, candidate, getRaw, setRaw, ht1, ht2, hb1, hb2, h12]
  rw [e1]
  dsimp only
  rw [e2]
  dsimp only
  rw [e3]
  dsimp only
  exact ⟨rfl, rfl, rfl, hb1, hb2, h12,
    by simp [getRaw],
    by simp [getRaw, hb1],
    by simp [getRaw, hb2, h12]⟩
